import Mathlib

/-!
Verification development for the Whisper-Converter-Linux repository.

The repository is a small desktop utility with three Python source files:
`config_manager.py` (durable preferences), `openai_service.py` (the remote
inference client), and `main.py` (the window / pipeline orchestrator).
Below, each Python function relevant to the specification claims is
translated into an executable Lean definition.  Stateful objects become
explicit records, the remote API becomes an explicit oracle argument
(`net : Nat → Except String _`, giving the outcome of the i-th network
call issued by the operation), and Python exceptions become `Except`.
-/

/-- A parsed JSON value, as produced by Python `json.load` / `json.loads`.
`str` models JSON strings, `obj` models JSON objects (Python dicts, keys
unique), and `other` stands for the remaining JSON values (arrays, numbers,
booleans, null), whose internal structure no claim depends on. -/
inductive JsonVal : Type
  | str (s : String)
  | obj (fields : List (String × JsonVal))
  | other

/-- Lookup of a key in a JSON object's field list (Python dict lookup;
keys are unique, first match). -/
def jsonLookup : List (String × JsonVal) → String → Option JsonVal
  | [], _ => none
  | (k, v) :: rest, key => if k = key then some v else jsonLookup rest key

/-- Update of a key in a JSON object's field list (Python dict item
assignment: replaces the existing binding or appends a new one). -/
def jsonSet : List (String × JsonVal) → String → JsonVal → List (String × JsonVal)
  | [], key, v => [(key, v)]
  | (k, w) :: rest, key, v =>
    if k = key then (key, v) :: rest else (k, w) :: jsonSet rest key v

/-- Python `d.get(key, default)`.  On a non-dict value the attribute access
raises `AttributeError`, modelled as an error. -/
def dict_get : JsonVal → String → JsonVal → Except String JsonVal
  | JsonVal.obj fs, key, dflt => Except.ok ((jsonLookup fs key).getD dflt)
  | JsonVal.str _, _, _ => Except.error "AttributeError"
  | JsonVal.other, _, _ => Except.error "AttributeError"

/-- Python `d[key] = v`.  On a non-dict value item assignment raises
`TypeError`, modelled as an error. -/
def dict_set : JsonVal → String → JsonVal → Except String JsonVal
  | JsonVal.obj fs, key, v => Except.ok (JsonVal.obj (jsonSet fs key v))
  | JsonVal.str _, _, _ => Except.error "TypeError"
  | JsonVal.other, _, _ => Except.error "TypeError"

/-- Does the character list begin with the given pattern?  Helper for the
translations of Python `str.startswith` and the `in` operator. -/
def charsLead : List Char → List Char → Bool
  | [], _ => true
  | _ :: _, [] => false
  | a :: pat, b :: s => a = b && charsLead pat s

/-- Does the pattern occur contiguously anywhere in the character list? -/
def charsHave : List Char → List Char → Bool
  | pat, [] => charsLead pat []
  | pat, b :: s => charsLead pat (b :: s) || charsHave pat s

/-- Python `s.startswith(pat)`. -/
def strStarts (s pat : String) : Bool := charsLead pat.data s.data

/-- Python `pat in s` (contiguous substring test). -/
def strContains (s pat : String) : Bool := charsHave pat.data s.data

/-!
## Preference store (`config_manager.py`)
-/

/-- The observable states of the stored preferences file, from the point of
view of `ConfigManager._load_config` (lines 20-39 of `config_manager.py`):

* `absent` — `self.config_file.exists()` is false;
* `unreadable` — `open(self.config_file, 'r')` raises an `OSError` other
  than `FileNotFoundError` (e.g. `PermissionError` on a file without read
  permission); such an exception is not in the `except` clause
  `(json.JSONDecodeError, FileNotFoundError)` and so propagates;
* `badEncoding` — reading the file raises `UnicodeDecodeError` (bytes that
  are not valid text); this is a `ValueError` but not a `JSONDecodeError`,
  so it also propagates;
* `content r` — the file was opened and read; `r` is the outcome of
  `json.load`: `Except.error` when the text is not valid JSON
  (`json.JSONDecodeError`, which the code catches), `Except.ok v` for the
  parsed value `v` otherwise. -/
inductive FileState : Type
  | absent
  | unreadable
  | badEncoding
  | content (r : Except String JsonVal)

/-- The default configuration dict built inline in `_load_config`. -/
def defaultConfig : JsonVal :=
  JsonVal.obj
    [("openai_api_key", JsonVal.str ""),
     ("whisper_model", JsonVal.str "whisper-1"),
     ("text_model", JsonVal.str "gpt-4o-mini")]

/-- `ConfigManager._load_config` (config_manager.py lines 20-39): returns
the default dict when the file does not exist, catches only
`json.JSONDecodeError` and `FileNotFoundError` (again returning the
default dict), lets every other exception propagate, and otherwise returns
whatever value `json.load` produced. -/
def load_config : FileState → Except String JsonVal
  | FileState.absent => Except.ok defaultConfig
  | FileState.unreadable => Except.error "PermissionError"
  | FileState.badEncoding => Except.error "UnicodeDecodeError"
  | FileState.content (Except.error _) => Except.ok defaultConfig
  | FileState.content (Except.ok v) => Except.ok v

/-- `ConfigManager.save_config` (lines 41-44): `json.dump(self.config, f)`
serialises the in-memory value; reading the written file back and parsing
it recovers an equal JSON value, so the written file state carries the
value itself. -/
def save_config (v : JsonVal) : FileState := FileState.content (Except.ok v)

/-- The in-memory `ConfigManager` state: `self.config`, the value returned
by `_load_config` (which need not be a dict if the file held other valid
JSON). -/
structure ConfigManager : Type where
  config : JsonVal

/-- `ConfigManager.get_openai_api_key` (lines 46-48). -/
def get_openai_api_key (c : ConfigManager) : Except String JsonVal :=
  dict_get c.config "openai_api_key" (JsonVal.str "")

/-- `ConfigManager.get_whisper_model` (lines 55-57). -/
def get_whisper_model (c : ConfigManager) : Except String JsonVal :=
  dict_get c.config "whisper_model" (JsonVal.str "whisper-1")

/-- `ConfigManager.get_text_model` (lines 64-66). -/
def get_text_model (c : ConfigManager) : Except String JsonVal :=
  dict_get c.config "text_model" (JsonVal.str "gpt-4o-mini")

/-- `ConfigManager.set_openai_api_key` (lines 50-53): assigns the field and
immediately saves.  Returns the updated manager and the written file. -/
def set_openai_api_key (c : ConfigManager) (api_key : String) :
    Except String (ConfigManager × FileState) :=
  match dict_set c.config "openai_api_key" (JsonVal.str api_key) with
  | Except.error e => Except.error e
  | Except.ok v => Except.ok (⟨v⟩, save_config v)

/-- `ConfigManager.set_whisper_model` (lines 59-62). -/
def set_whisper_model (c : ConfigManager) (model : String) :
    Except String (ConfigManager × FileState) :=
  match dict_set c.config "whisper_model" (JsonVal.str model) with
  | Except.error e => Except.error e
  | Except.ok v => Except.ok (⟨v⟩, save_config v)

/-- `ConfigManager.set_text_model` (lines 68-71). -/
def set_text_model (c : ConfigManager) (model : String) :
    Except String (ConfigManager × FileState) :=
  match dict_set c.config "text_model" (JsonVal.str model) with
  | Except.error e => Except.error e
  | Except.ok v => Except.ok (⟨v⟩, save_config v)

/-!
## Remote inference client (`openai_service.py`)

The `OpenAIService` object holds `self.api_key` and `self.client`.  The
`openai.OpenAI` client object is modelled by the key it was constructed
with: `client = some k` corresponds to `self.client = OpenAI(api_key=k)`
and `client = none` to `self.client = None`.  Note that
`OpenAI(api_key="")` succeeds (the key is not `None`) and the resulting
object is truthy, so `set_api_key("")` leaves the service with
`client = some ""`.

Each operation takes the remote API as an oracle `net`, where `net i` is
the outcome of the i-th network call the operation issues (the operations
below issue at most one).  Alongside its result, each operation returns
the list of API requests it actually issued, in order.
-/

structure OpenAIService : Type where
  api_key : String
  client : Option String

/-- `OpenAIService.set_api_key` (openai_service.py lines 30-33):
unconditionally rebuilds the client. -/
def set_api_key (_svc : OpenAIService) (api_key : String) : OpenAIService :=
  { api_key := api_key, client := some api_key }

/-- `OpenAIService.__init__` (lines 23-28): stores the key, leaves the
client `None`, then calls `set_api_key` only when the key is truthy
(non-empty). -/
def mkOpenAIService (api_key : String) : OpenAIService :=
  if api_key = "" then { api_key := api_key, client := none }
  else set_api_key { api_key := api_key, client := none } api_key

/-- The guard message raised by all three operations when `self.client`
is `None` (lines 58, 101, 133). -/
def apiKeyNotSetMsg : String :=
  "API key not set. Please set your OpenAI API key in settings."

/-- The system prompt of the chat-style transcription request (line 67). -/
def transcribeSystemPrompt : String :=
  "You are a helpful assistant that transcribes audio accurately. Provide only the transcription without any additional commentary."

/-- The system prompt of `clean_text` (line 104). -/
def cleanSystemPrompt : String :=
  "You are a text rewriting assistant. You will receive text that was captured and transcribed from speech to text processing. Your task is to edit this text for intelligibility and clarity. You should resolve any obvious typos. If you can identify in the text instructions to remove part of the transcribed text, such as \"actually, delete that\" Then you should action the intent, which you can infer from the instruction which was included in the transcript. You should also add paragraph spacing. You should use bullet points where it would be helpful to improve the intelligibility of the text. You should add headers where it would similarly make the text more readable. If there is repetition or redundancy in the text, then you can remove it in your improved version. Once you have applied these edits, you must return the edited text."

/-- The system prompt of `generate_title` (line 136). -/
def titleSystemPrompt : String :=
  "You are a helpful assistant. Your task is to generate a short title for the text. The title should summarize its main content. In addition to the display title, you must also generate a suggested file name. The file name should be similar to the main title, but it should be written in kebab case (no upper case, hyphens for space). Return your response in JSON format with two fields: \x27title\x27 and \x27filename\x27."

/-- The shapes of remote API requests the client can issue:
`audioChat` is `client.chat.completions.create` with the raw audio bytes
as an audio content part and the given system instruction (lines 64-73);
`sttRequest` is `client.audio.transcriptions.create` with the raw bytes
and the model id (lines 78-81); `textChat` is `client.chat.completions.create`
with a text system prompt, the user text, and the named response format
(lines 106-113 and 138-145). -/
inductive ApiRequest : Type
  | audioChat (model sys : String)
  | sttRequest (model : String)
  | textChat (model sys user fmt : String)

/-- `OpenAIService.transcribe_audio` (lines 43-84).  `file_read` is the
outcome of `open(file_path, "rb")` / reading the bytes (an error models
the raised `OSError`); both routes open the file before issuing their
request, inside the `try` block.  `net i` yields the extracted text of the
i-th API call (`response.choices[0].message.content` on the chat route,
`response.text` on the dedicated route), or the stringified exception. -/
def transcribe_audio (svc : OpenAIService) (file_path model : String)
    (file_read : Except String Unit) (net : Nat → Except String String) :
    Except String String × List ApiRequest :=
  match svc.client with
  | none => (Except.error apiKeyNotSetMsg, [])
  | some _ =>
    match file_read with
    | Except.error e => (Except.error ("Error transcribing audio: " ++ e), [])
    | Except.ok _ =>
      if strStarts model "gpt-4o" && strContains model "transcribe" then
        match net 0 with
        | Except.ok content =>
          (Except.ok content, [ApiRequest.audioChat model transcribeSystemPrompt])
        | Except.error e =>
          (Except.error ("Error transcribing audio: " ++ e),
           [ApiRequest.audioChat model transcribeSystemPrompt])
      else
        match net 0 with
        | Except.ok t => (Except.ok t, [ApiRequest.sttRequest model])
        | Except.error e =>
          (Except.error ("Error transcribing audio: " ++ e),
           [ApiRequest.sttRequest model])

/-- `OpenAIService.clean_text` (lines 86-116). -/
def clean_text (svc : OpenAIService) (text model : String)
    (net : Nat → Except String String) :
    Except String String × List ApiRequest :=
  match svc.client with
  | none => (Except.error apiKeyNotSetMsg, [])
  | some _ =>
    match net 0 with
    | Except.ok content =>
      (Except.ok content, [ApiRequest.textChat model cleanSystemPrompt text "text"])
    | Except.error e =>
      (Except.error ("Error cleaning text: " ++ e),
       [ApiRequest.textChat model cleanSystemPrompt text "text"])

/-- `OpenAIService.generate_title` (lines 118-150).  The oracle's outer
`Except` is the API call itself; on success the inner `Except` is the
outcome of `json.loads(response.choices[0].message.content)` (line 147),
which runs inside the same `try` block.  The two `result.get` calls
(line 148) substitute the literal fallbacks for missing keys, and raise
`AttributeError` when the parsed value is not a dict — also caught and
wrapped by the same handler. -/
def generate_title (svc : OpenAIService) (text model : String)
    (net : Nat → Except String (Except String JsonVal)) :
    Except String (JsonVal × JsonVal) × List ApiRequest :=
  match svc.client with
  | none => (Except.error apiKeyNotSetMsg, [])
  | some _ =>
    match net 0 with
    | Except.error e =>
      (Except.error ("Error generating title: " ++ e),
       [ApiRequest.textChat model titleSystemPrompt text "json_object"])
    | Except.ok (Except.error e) =>
      (Except.error ("Error generating title: " ++ e),
       [ApiRequest.textChat model titleSystemPrompt text "json_object"])
    | Except.ok (Except.ok v) =>
      match dict_get v "title" (JsonVal.str "Untitled"),
            dict_get v "filename" (JsonVal.str "untitled") with
      | Except.ok t, Except.ok f =>
        (Except.ok (t, f),
         [ApiRequest.textChat model titleSystemPrompt text "json_object"])
      | Except.error e, _ =>
        (Except.error ("Error generating title: " ++ e),
         [ApiRequest.textChat model titleSystemPrompt text "json_object"])
      | _, Except.error e =>
        (Except.error ("Error generating title: " ++ e),
         [ApiRequest.textChat model titleSystemPrompt text "json_object"])

/-!
## Background worker (`main.py`, class `WorkerThread`)
-/

/-- The signals a `WorkerThread` can emit on completion. -/
inductive WorkerEvent (α : Type) : Type
  | finishedEvt (result : α)
  | errorEvt (msg : String)

/-- `WorkerThread.run` (main.py lines 234-240): runs the wrapped call
(whose outcome is `func`: `Except.ok` a result, or `Except.error` the
stringified exception) inside `try`, emits `finished` with the result on
return and `error` with `str(e)` on exception.  Returns the list of
emitted signals in order. -/
def workerRun {α : Type} (func : Except String α) : List (WorkerEvent α) :=
  match func with
  | Except.ok r => [WorkerEvent.finishedEvt r]
  | Except.error e => [WorkerEvent.errorEvt e]

/-!
## Pipeline orchestrator (`main.py`, class `MainWindow`)

The Session state comprises the fields of `MainWindow` that hold
user-visible pipeline data: `selected_file_path`, the contents of the
two text widgets (`transcribed_text`, `cleaned_text`), and the generated
title/filename pair.  `api_key_setting` is the string the attached
`config_manager.get_openai_api_key()` returns.
-/

structure Session : Type where
  selected_file_path : Option String
  transcribed_text : String
  cleaned_text : String
  generated_title : Option String
  generated_filename : Option String

structure MainWindow : Type where
  session : Session
  api_key_setting : String

/-- The user-visible effects of a stage trigger: a `QMessageBox.warning`
dialog, a status-bar message, or the start of a `WorkerThread` for the
named task (which is what issues the network call). -/
inductive UiEvent : Type
  | warnBox (title msg : String)
  | statusMsg (msg : String)
  | workerStart (task : String)

/-- `MainWindow.transcribe_audio` (main.py lines 427-457), up to starting
the worker: returns silently when no file is selected, shows a warning
when the stored API key is empty, otherwise starts the "transcribe"
worker.  Returns the (unchanged) window state and the emitted UI events. -/
def window_transcribe (w : MainWindow) : MainWindow × List UiEvent :=
  match w.session.selected_file_path with
  | none => (w, [])
  | some _ =>
    if w.api_key_setting = "" then
      (w, [UiEvent.warnBox "API Key Required"
             "Please set your OpenAI API key in Settings before transcribing."])
    else
      (w, [UiEvent.statusMsg "Transcribing audio...",
           UiEvent.workerStart "transcribe"])

/-- `MainWindow.clean_text` (main.py lines 467-502), up to starting the
worker. -/
def window_clean_text (w : MainWindow) : MainWindow × List UiEvent :=
  if w.session.transcribed_text = "" then
    (w, [UiEvent.warnBox "No Text" "Please transcribe an audio file first."])
  else if w.api_key_setting = "" then
    (w, [UiEvent.warnBox "API Key Required"
           "Please set your OpenAI API key in Settings before cleaning text."])
  else
    (w, [UiEvent.statusMsg "Cleaning text...", UiEvent.workerStart "clean"])

/-- `MainWindow.generate_title` (main.py lines 511-546), up to starting
the worker. -/
def window_generate_title (w : MainWindow) : MainWindow × List UiEvent :=
  if w.session.transcribed_text = "" then
    (w, [UiEvent.warnBox "No Text" "Please transcribe an audio file first."])
  else if w.api_key_setting = "" then
    (w, [UiEvent.warnBox "API Key Required"
           "Please set your OpenAI API key in Settings before generating a title."])
  else
    (w, [UiEvent.statusMsg "Generating title...", UiEvent.workerStart "title"])

/-- `MainWindow.on_cleaning_complete` (main.py lines 504-509): writes the
returned text into the cleaned-text widget; the other session fields are
untouched (the remaining statements only update the progress bar and the
status bar). -/
def on_cleaning_complete (w : MainWindow) (text : String) :
    MainWindow × List UiEvent :=
  ({ w with session := { w.session with cleaned_text := text } },
   [UiEvent.statusMsg "Text cleaning complete"])

/-!
## Lemmas about dict update
-/

/-- After `d[k] = v`, looking up `k` yields `v`. -/
theorem jsonLookup_jsonSet_self (fs : List (String × JsonVal)) (k : String) (v : JsonVal) :
    jsonLookup (jsonSet fs k v) k = some v := by
  induction fs with
  | nil => simp [jsonSet, jsonLookup]
  | cons p rest ih =>
    obtain ⟨a, b⟩ := p
    by_cases h : a = k
    · simp [jsonSet, jsonLookup, h]
    · simp [jsonSet, jsonLookup, h, ih]

/-- After `d[k] = v`, looking up any other key is unchanged. -/
theorem jsonLookup_jsonSet_ne (fs : List (String × JsonVal)) (k key : String) (v : JsonVal)
    (h : k ≠ key) : jsonLookup (jsonSet fs k v) key = jsonLookup fs key := by
  induction fs with
  | nil => simp [jsonSet, jsonLookup, h]
  | cons p rest ih =>
    obtain ⟨a, b⟩ := p
    by_cases ha : a = k
    · subst ha; simp [jsonSet, jsonLookup, h]
    · by_cases hk : a = key <;> simp [jsonSet, jsonLookup, ha, hk, ih, Ne.symm h]

/-- Normal form of `transcribe_audio` when the client is initialised and the
file opens: the result transforms the single network outcome, and the issued
request is selected by the model-id test of line 62. -/
theorem transcribe_audio_eq (k c fp m : String) (net : Nat → Except String String) :
    transcribe_audio ⟨k, some c⟩ fp m (Except.ok ()) net
      = ((match net 0 with
          | Except.ok t => Except.ok t
          | Except.error err => Except.error ("Error transcribing audio: " ++ err)),
         (if strStarts m "gpt-4o" && strContains m "transcribe"
          then [ApiRequest.audioChat m transcribeSystemPrompt]
          else [ApiRequest.sttRequest m])) := by
  by_cases hb : (strStarts m "gpt-4o" && strContains m "transcribe") = true <;>
    cases hn : net 0 <;> simp [ transcribe_audio, hb, hn]

/-!
## Claims
-/

/-- Claim C1, counterexample: the model id "my-gpt-4o-transcribe" contains
both the multimodal marker "gpt-4o" and "transcribe", yet `transcribe_audio`
sends it through the dedicated speech-to-text endpoint, because line 62
tests `model.startswith("gpt-4o")`, not containment. -/
theorem c1_routing_counterexample :
    strContains "my-gpt-4o-transcribe" "gpt-4o" = true ∧
    strContains "my-gpt-4o-transcribe" "transcribe" = true ∧
    ( transcribe_audio ⟨"k", some "k"⟩ "a.mp3" "my-gpt-4o-transcribe"
        (Except.ok ()) (fun _ => Except.ok "txt")).2
      = [ApiRequest.sttRequest "my-gpt-4o-transcribe"] :=
  ⟨by decide, by decide, rfl⟩

/-- Claim C1, amended: with an initialised client and a readable file,
`transcribe_audio` issues the chat-style audio request exactly when the
model id starts with "gpt-4o" and contains "transcribe", and the dedicated
speech-to-text request for every other id. -/
theorem c1_routing_amended (k c file_path model : String)
    (net : Nat → Except String String) :
    (( transcribe_audio ⟨k, some c⟩ file_path model (Except.ok ()) net).2
        = [ApiRequest.audioChat model transcribeSystemPrompt]
      ↔ (strStarts model "gpt-4o" && strContains model "transcribe") = true) ∧
    (( transcribe_audio ⟨k, some c⟩ file_path model (Except.ok ()) net).2
        = [ApiRequest.sttRequest model]
      ↔ (strStarts model "gpt-4o" && strContains model "transcribe") = false) := by
  rw [ transcribe_audio_eq]
  cases hb : (strStarts model "gpt-4o" && strContains model "transcribe") <;> simp

/-- Claim C2, counterexample: after `set_api_key("")` the service holds an
empty credential yet an initialised client (`OpenAI(api_key="")` is a
truthy object), so all three operations proceed to the network instead of
failing with the configuration error. -/
theorem c2_guard_counterexample :
    (set_api_key (mkOpenAIService "") "").api_key = "" ∧
    ( transcribe_audio (set_api_key (mkOpenAIService "") "") "a.mp3" "whisper-1"
        (Except.ok ()) (fun _ => Except.ok "hello")).1 = Except.ok "hello" ∧
    ( clean_text (set_api_key (mkOpenAIService "") "") "some text" "gpt-4o-mini"
        (fun _ => Except.ok "cleaned")).1 = Except.ok "cleaned" ∧
    ( generate_title (set_api_key (mkOpenAIService "") "") "some text" "gpt-4o-mini"
        (fun _ => Except.ok (Except.ok
          (JsonVal.obj [("title", JsonVal.str "T"), ("filename", JsonVal.str "t")])))).1
      = Except.ok (JsonVal.str "T", JsonVal.str "t") :=
  ⟨rfl, rfl, rfl, rfl⟩

/-- Claim C2, amended: whenever the internal client is uninitialised
(`self.client is None`), each of the three operations fails with the
"API key not set..." message and issues no network request, for every
input and every network oracle.  The client is uninitialised exactly when
no non-empty credential was supplied at construction and `set_api_key` was
never called; `set_api_key` initialises the client for any argument,
including the empty string. -/
theorem c2_guard_amended (k file_path model text key2 : String)
    (file_read : Except String Unit)
    (net : Nat → Except String String)
    (netT : Nat → Except String (Except String JsonVal)) :
    transcribe_audio ⟨k, none⟩ file_path model file_read net
      = (Except.error apiKeyNotSetMsg, []) ∧
    clean_text ⟨k, none⟩ text model net = (Except.error apiKeyNotSetMsg, []) ∧
    generate_title ⟨k, none⟩ text model netT = (Except.error apiKeyNotSetMsg, []) ∧
    mkOpenAIService "" = ⟨"", none⟩ ∧
    set_api_key ⟨k, none⟩ key2 = ⟨key2, some key2⟩ :=
  ⟨rfl, rfl, rfl, rfl, rfl⟩

/-- Claim C3, counterexample: on a preferences file that exists but cannot
be read (`PermissionError` from `open`, an exception absent from the
`except (json.JSONDecodeError, FileNotFoundError)` clause), `_load_config`
propagates the exception instead of returning defaults — load fails. -/
theorem c3_load_counterexample :
    load_config FileState.unreadable = Except.error "PermissionError" := rfl

/-- Claim C3, amended: when the preferences file is absent, or readable
but not valid JSON, `_load_config` succeeds with the full default record;
the three getters on the default record yield the default values, and on
any stored JSON object they substitute the defaults for missing keys. -/
theorem c3_load_amended (e : String) (fs : List (String × JsonVal)) :
    load_config FileState.absent = Except.ok defaultConfig ∧
    load_config (FileState.content (Except.error e)) = Except.ok defaultConfig ∧
    get_openai_api_key ⟨defaultConfig⟩ = Except.ok (JsonVal.str "") ∧
    get_whisper_model ⟨defaultConfig⟩ = Except.ok (JsonVal.str "whisper-1") ∧
    get_text_model ⟨defaultConfig⟩ = Except.ok (JsonVal.str "gpt-4o-mini") ∧
    (jsonLookup fs "openai_api_key" = none →
      get_openai_api_key ⟨JsonVal.obj fs⟩ = Except.ok (JsonVal.str "")) ∧
    (jsonLookup fs "whisper_model" = none →
      get_whisper_model ⟨JsonVal.obj fs⟩ = Except.ok (JsonVal.str "whisper-1")) ∧
    (jsonLookup fs "text_model" = none →
      get_text_model ⟨JsonVal.obj fs⟩ = Except.ok (JsonVal.str "gpt-4o-mini")) := by
  refine ⟨rfl, rfl, rfl, rfl, rfl, ?_, ?_, ?_⟩ <;> intro h <;>
    simp [get_openai_api_key, get_whisper_model, get_text_model, dict_get, h]

/-- Witness for the amended claim C3, at the absent file and the empty
stored object. -/
theorem c3_load_amended_witness :
    load_config FileState.absent = Except.ok defaultConfig ∧
    get_whisper_model ⟨JsonVal.obj []⟩ = Except.ok (JsonVal.str "whisper-1") :=
  ⟨(c3_load_amended "x" []).1, (c3_load_amended "x" []).2.2.2.2.2.2.1 rfl⟩

/-- Claim C4, counterexample: triggering transcription with no file
selected returns silently — the window state is unchanged and no event at
all (in particular no validation message and no worker start) is
delivered, contradicting the claimed validation message. -/
theorem c4_guard_counterexample :
    window_transcribe ⟨⟨none, "some transcript", "", none, none⟩, "sk-key"⟩
      = (⟨⟨none, "some transcript", "", none, none⟩, "sk-key"⟩, []) := rfl

/-- Claim C4, amended: every stage trigger with its precondition unmet
leaves the window (hence the Session) unmodified and starts no worker
(hence issues no network call); clean/title with empty text and any stage
with an empty stored API key additionally show a warning dialog, while
transcribe with no file selected returns silently with no message. -/
theorem c4_guard_amended (w : MainWindow) :
    (w.session.selected_file_path = none → window_transcribe w = (w, [])) ∧
    (∀ p, w.session.selected_file_path = some p → w.api_key_setting = "" →
      window_transcribe w
        = (w, [UiEvent.warnBox "API Key Required"
                 "Please set your OpenAI API key in Settings before transcribing."])) ∧
    (w.session.transcribed_text = "" →
      window_clean_text w
        = (w, [UiEvent.warnBox "No Text" "Please transcribe an audio file first."])) ∧
    (w.session.transcribed_text ≠ "" → w.api_key_setting = "" →
      window_clean_text w
        = (w, [UiEvent.warnBox "API Key Required"
                 "Please set your OpenAI API key in Settings before cleaning text."])) ∧
    (w.session.transcribed_text = "" →
      window_generate_title w
        = (w, [UiEvent.warnBox "No Text" "Please transcribe an audio file first."])) ∧
    (w.session.transcribed_text ≠ "" → w.api_key_setting = "" →
      window_generate_title w
        = (w, [UiEvent.warnBox "API Key Required"
                 "Please set your OpenAI API key in Settings before generating a title."])) := by
  refine ⟨?_, ?_, ?_, ?_, ?_, ?_⟩
  · intro h; simp [window_transcribe, h]
  · intro p hp hk; simp [window_transcribe, hp, hk]
  · intro h; simp [window_clean_text, h]
  · intro h hk; simp [window_clean_text, h, hk]
  · intro h; simp [window_generate_title, h]
  · intro h hk; simp [window_generate_title, h, hk]

/-- Witness for the amended claim C4, at concrete windows for each of the
six unmet-precondition cases. -/
theorem c4_guard_amended_witness :
    window_transcribe ⟨⟨none, "", "", none, none⟩, ""⟩
      = (⟨⟨none, "", "", none, none⟩, ""⟩, []) ∧
    window_transcribe ⟨⟨some "a.mp3", "t", "", none, none⟩, ""⟩
      = (⟨⟨some "a.mp3", "t", "", none, none⟩, ""⟩,
         [UiEvent.warnBox "API Key Required"
            "Please set your OpenAI API key in Settings before transcribing."]) ∧
    window_clean_text ⟨⟨none, "", "", none, none⟩, ""⟩
      = (⟨⟨none, "", "", none, none⟩, ""⟩,
         [UiEvent.warnBox "No Text" "Please transcribe an audio file first."]) ∧
    window_clean_text ⟨⟨some "a.mp3", "t", "", none, none⟩, ""⟩
      = (⟨⟨some "a.mp3", "t", "", none, none⟩, ""⟩,
         [UiEvent.warnBox "API Key Required"
            "Please set your OpenAI API key in Settings before cleaning text."]) ∧
    window_generate_title ⟨⟨none, "", "", none, none⟩, ""⟩
      = (⟨⟨none, "", "", none, none⟩, ""⟩,
         [UiEvent.warnBox "No Text" "Please transcribe an audio file first."]) ∧
    window_generate_title ⟨⟨some "a.mp3", "t", "", none, none⟩, ""⟩
      = (⟨⟨some "a.mp3", "t", "", none, none⟩, ""⟩,
         [UiEvent.warnBox "API Key Required"
            "Please set your OpenAI API key in Settings before generating a title."]) :=
  ⟨(c4_guard_amended _).1 rfl,
   (c4_guard_amended _).2.1 "a.mp3" rfl rfl,
   (c4_guard_amended _).2.2.1 rfl,
   (c4_guard_amended _).2.2.2.1 (by decide) rfl,
   (c4_guard_amended _).2.2.2.2.1 rfl,
   (c4_guard_amended _).2.2.2.2.2 (by decide) rfl⟩

/-- Claim C5: on any response parsing to a JSON object, `generate_title`
substitutes literal fallbacks for missing fields instead of failing — a
response missing only `filename` yields the parsed title paired with
"untitled", and a response missing both fields yields
("Untitled", "untitled"). -/
theorem c5_title_fallbacks (k c text model : String) (fields : List (String × JsonVal))
    (hf : jsonLookup fields "filename" = none) :
    (∀ t, jsonLookup fields "title" = some t →
      ( generate_title ⟨k, some c⟩ text model
          (fun _ => Except.ok (Except.ok (JsonVal.obj fields)))).1
        = Except.ok (t, JsonVal.str "untitled")) ∧
    (jsonLookup fields "title" = none →
      ( generate_title ⟨k, some c⟩ text model
          (fun _ => Except.ok (Except.ok (JsonVal.obj fields)))).1
        = Except.ok (JsonVal.str "Untitled", JsonVal.str "untitled")) := by
  constructor
  · intro t ht; simp [ generate_title, dict_get, ht, hf]
  · intro ht; simp [ generate_title, dict_get, ht, hf]

/-- Witness for claim C5, at a response carrying only a title and at the
empty object. -/
theorem c5_title_fallbacks_witness :
    ( generate_title ⟨"k", some "k"⟩ "text" "gpt-4o-mini"
        (fun _ => Except.ok (Except.ok
          (JsonVal.obj [("title", JsonVal.str "My Notes")])))).1
      = Except.ok (JsonVal.str "My Notes", JsonVal.str "untitled") ∧
    ( generate_title ⟨"k", some "k"⟩ "text" "gpt-4o-mini"
        (fun _ => Except.ok (Except.ok (JsonVal.obj [])))).1
      = Except.ok (JsonVal.str "Untitled", JsonVal.str "untitled") :=
  ⟨(c5_title_fallbacks "k" "k" "text" "gpt-4o-mini"
      [("title", JsonVal.str "My Notes")] rfl).1 (JsonVal.str "My Notes") rfl,
   (c5_title_fallbacks "k" "k" "text" "gpt-4o-mini" [] rfl).2 rfl⟩

/-- Claim C6: after the credential guard, every failure inside an
operation (file read, network, or response parse) surfaces as an error
wrapping the underlying message with the stage-identifying prefix
("Error transcribing audio: ", "Error cleaning text: ",
"Error generating title: "), and each operation consults the network
oracle for at most its first response — it is never retried. -/
theorem c6_error_wrapping (k c file_path text model e : String)
    (net net2 : Nat → Except String String)
    (netT netT2 : Nat → Except String (Except String JsonVal)) :
    (net 0 = Except.error e →
      ( transcribe_audio ⟨k, some c⟩ file_path model (Except.ok ()) net).1
        = Except.error ("Error transcribing audio: " ++ e)) ∧
    (( transcribe_audio ⟨k, some c⟩ file_path model (Except.error e) net).1
        = Except.error ("Error transcribing audio: " ++ e)) ∧
    (net 0 = Except.error e →
      ( clean_text ⟨k, some c⟩ text model net).1
        = Except.error ("Error cleaning text: " ++ e)) ∧
    (netT 0 = Except.error e →
      ( generate_title ⟨k, some c⟩ text model netT).1
        = Except.error ("Error generating title: " ++ e)) ∧
    (netT 0 = Except.ok (Except.error e) →
      ( generate_title ⟨k, some c⟩ text model netT).1
        = Except.error ("Error generating title: " ++ e)) ∧
    (net2 0 = net 0 →
      transcribe_audio ⟨k, some c⟩ file_path model (Except.ok ()) net2
        = transcribe_audio ⟨k, some c⟩ file_path model (Except.ok ()) net) ∧
    (net2 0 = net 0 →
      clean_text ⟨k, some c⟩ text model net2 = clean_text ⟨k, some c⟩ text model net) ∧
    (netT2 0 = netT 0 →
      generate_title ⟨k, some c⟩ text model netT2
        = generate_title ⟨k, some c⟩ text model netT) := by
  refine ⟨?_, rfl, ?_, ?_, ?_, ?_, ?_, ?_⟩
  · intro h; rw [ transcribe_audio_eq, h]
  · intro h; simp [ clean_text, h]
  · intro h; simp [ generate_title, h]
  · intro h; simp [ generate_title, h]
  · intro h; rw [ transcribe_audio_eq, transcribe_audio_eq, h]
  · intro h; simp only [ clean_text]; rw [h]
  · intro h; simp only [ generate_title]; rw [h]

/-- Witness for claim C6, at a failing network call for each operation. -/
theorem c6_error_wrapping_witness :
    ( transcribe_audio ⟨"k", some "k"⟩ "a.mp3" "whisper-1" (Except.ok ())
        (fun _ => Except.error "boom")).1
      = Except.error ("Error transcribing audio: " ++ "boom") ∧
    ( clean_text ⟨"k", some "k"⟩ "t" "gpt-4o-mini" (fun _ => Except.error "boom")).1
      = Except.error ("Error cleaning text: " ++ "boom") ∧
    ( generate_title ⟨"k", some "k"⟩ "t" "gpt-4o-mini"
        (fun _ => Except.ok (Except.error "boom"))).1
      = Except.error ("Error generating title: " ++ "boom") :=
  ⟨(c6_error_wrapping "k" "k" "a.mp3" "t" "whisper-1" "boom"
      (fun _ => Except.error "boom") (fun _ => Except.error "boom")
      (fun _ => Except.ok (Except.error "boom"))
      (fun _ => Except.ok (Except.error "boom"))).1 rfl,
   (c6_error_wrapping "k" "k" "a.mp3" "t" "gpt-4o-mini" "boom"
      (fun _ => Except.error "boom") (fun _ => Except.error "boom")
      (fun _ => Except.ok (Except.error "boom"))
      (fun _ => Except.ok (Except.error "boom"))).2.2.1 rfl,
   (c6_error_wrapping "k" "k" "a.mp3" "t" "gpt-4o-mini" "boom"
      (fun _ => Except.error "boom") (fun _ => Except.error "boom")
      (fun _ => Except.ok (Except.error "boom"))
      (fun _ => Except.ok (Except.error "boom"))).2.2.2.2.1 rfl⟩

/-- Claim C7: the success handler of the cleaning stage writes the
returned text into `cleaned_text` and changes nothing else of the
Session — in particular the input `transcribed_text` is unmodified. -/
theorem c7_clean_frame (w : MainWindow) (text : String) :
    (on_cleaning_complete w text).1.session.cleaned_text = text ∧
    (on_cleaning_complete w text).1.session.transcribed_text
      = w.session.transcribed_text ∧
    (on_cleaning_complete w text).1.session.selected_file_path
      = w.session.selected_file_path ∧
    (on_cleaning_complete w text).1.session.generated_title
      = w.session.generated_title ∧
    (on_cleaning_complete w text).1.session.generated_filename
      = w.session.generated_filename ∧
    (on_cleaning_complete w text).1.api_key_setting = w.api_key_setting :=
  ⟨rfl, rfl, rfl, rfl, rfl, rfl⟩

/-- Claim C8: preference persistence round-trips — loading immediately
after saving any record yields the identical record, and consequently
saving a just-loaded record and re-loading is the identity. -/
theorem c8_round_trip (v : JsonVal) (fs : FileState) (c : JsonVal) :
    load_config (save_config v) = Except.ok v ∧
    (load_config fs = Except.ok c → load_config (save_config c) = Except.ok c) :=
  ⟨rfl, fun _ => rfl⟩

/-- Witness for claim C8, at the default record loaded from an absent
file. -/
theorem c8_round_trip_witness :
    load_config (save_config defaultConfig) = Except.ok defaultConfig :=
  (c8_round_trip defaultConfig FileState.absent defaultConfig).2 rfl

/-- Claim C9: `WorkerThread.run` delivers exactly one completion event per
invocation — the finished signal with the result when the wrapped call
returns, or the error signal with the message when it raises, never both
and never more than once. -/
theorem c9_single_event (α : Type) (f : Except String α) :
    (workerRun f).length = 1 ∧
    ((∃ r, f = Except.ok r ∧ workerRun f = [WorkerEvent.finishedEvt r]) ∨
     (∃ e, f = Except.error e ∧ workerRun f = [WorkerEvent.errorEvt e])) := by
  cases f with
  | ok r => exact ⟨rfl, Or.inl ⟨r, rfl, rfl⟩⟩
  | error e => exact ⟨rfl, Or.inr ⟨e, rfl, rfl⟩⟩

/-- Claim C10: each preference setter, run on any stored object, succeeds
and mutates only its own field of the persisted record — the other two
getters are unchanged, the setter's own getter returns the new value, and
the record written to disk loads back as the new in-memory record. -/
theorem c10_setter_frame (fs : List (String × JsonVal)) (v : String) :
    (∃ c1 st1, set_openai_api_key ⟨JsonVal.obj fs⟩ v = Except.ok (c1, st1) ∧
       get_openai_api_key c1 = Except.ok (JsonVal.str v) ∧
       get_whisper_model c1 = get_whisper_model ⟨JsonVal.obj fs⟩ ∧
       get_text_model c1 = get_text_model ⟨JsonVal.obj fs⟩ ∧
       load_config st1 = Except.ok c1.config) ∧
    (∃ c1 st1, set_whisper_model ⟨JsonVal.obj fs⟩ v = Except.ok (c1, st1) ∧
       get_whisper_model c1 = Except.ok (JsonVal.str v) ∧
       get_openai_api_key c1 = get_openai_api_key ⟨JsonVal.obj fs⟩ ∧
       get_text_model c1 = get_text_model ⟨JsonVal.obj fs⟩ ∧
       load_config st1 = Except.ok c1.config) ∧
    (∃ c1 st1, set_text_model ⟨JsonVal.obj fs⟩ v = Except.ok (c1, st1) ∧
       get_text_model c1 = Except.ok (JsonVal.str v) ∧
       get_openai_api_key c1 = get_openai_api_key ⟨JsonVal.obj fs⟩ ∧
       get_whisper_model c1 = get_whisper_model ⟨JsonVal.obj fs⟩ ∧
       load_config st1 = Except.ok c1.config) := by
  refine ⟨⟨_, _, rfl, ?_, ?_, ?_, rfl⟩, ⟨_, _, rfl, ?_, ?_, ?_, rfl⟩,
          ⟨_, _, rfl, ?_, ?_, ?_, rfl⟩⟩
  · simp [get_openai_api_key, dict_get, jsonLookup_jsonSet_self]
  · simp only [get_whisper_model, dict_get]
    rw [jsonLookup_jsonSet_ne _ _ _ _ (by decide)]
  · simp only [get_text_model, dict_get]
    rw [jsonLookup_jsonSet_ne _ _ _ _ (by decide)]
  · simp [get_whisper_model, dict_get, jsonLookup_jsonSet_self]
  · simp only [get_openai_api_key, dict_get]
    rw [jsonLookup_jsonSet_ne _ _ _ _ (by decide)]
  · simp only [get_text_model, dict_get]
    rw [jsonLookup_jsonSet_ne _ _ _ _ (by decide)]
  · simp [get_text_model, dict_get, jsonLookup_jsonSet_self]
  · simp only [get_openai_api_key, dict_get]
    rw [jsonLookup_jsonSet_ne _ _ _ _ (by decide)]
  · simp only [get_whisper_model, dict_get]
    rw [jsonLookup_jsonSet_ne _ _ _ _ (by decide)]
